import Mathlib

/-!
Shallow embedding of the e-commerce backend (src/main.py, src/schemas.py):
session-scoped cart, hydrated cart views with 2-decimal rounding, and
checkout-to-order conversion over a document store.

The MongoDB collections `product`, `cart`, `order` are modelled as lists in a
`Store` record; `find_one` is first-match lookup, `delete_many` is `filter`,
`update_one` by `_id` is `map`.  Python floats are modelled by exact rationals
and Python's `round(x, 2)` by banker's rounding on rationals.  Pydantic request
validation (a FastAPI 422) and an unhandled exception inside a handler (a
FastAPI 500) are modelled as error constructors distinct from the handler's own
`HTTPException`s.
-/

namespace ECom

/-- Whether a character is a hexadecimal digit (both cases), as accepted by
`bson.ObjectId` when parsing a 24-character hex string. -/
def isHexChar (c : Char) : Bool :=
  c.isDigit || ('a' ≤ c && c ≤ 'f') || ('A' ≤ c && c ≤ 'F')

/-- Validity of a `bson.ObjectId` string: exactly 24 hexadecimal characters.
`ObjectId(product_id)` in `get_product_or_404` raises (→ HTTP 400) exactly when
this is false. -/
def isValidObjectId (s : String) : Bool :=
  s.length == 24 && s.data.all isHexChar

/-- Banker's rounding (round half to even) of a rational to an integer, the
rounding mode of Python's built-in `round`. -/
def roundHalfEven (x : ℚ) : ℤ :=
  let f : ℤ := x.num.fdiv (x.den : ℤ)
  let frac : ℚ := x - (f : ℚ)
  if frac < 1/2 then f
  else if 1/2 < frac then f + 1
  else if f % 2 = 0 then f else f + 1

/-- Model of Python's `round(x, 2)` over exact rationals: round `100 * x` half
to even, then divide by 100. -/
def round2 (x : ℚ) : ℚ := (roundHalfEven (100 * x) : ℚ) / 100

/-- Product document (schemas.Product). -/
structure Product where
  title : String
  description : Option String := none
  price : ℚ
  category : String
  image : Option String := none
  in_stock : Bool := true
  rating : Option ℚ := some (9/2)
deriving Repr, DecidableEq

/-- Stored cart document: a `CartItem` plus its generated `_id`. -/
structure CartDoc where
  id : Nat
  session_id : String
  product_id : String
  quantity : Int
deriving Repr, DecidableEq

/-- Snapshot line of an order (schemas.OrderItem). -/
structure OrderItem where
  product_id : String
  title : String
  price : ℚ
  quantity : Int
  subtotal : ℚ
deriving Repr, DecidableEq

/-- Stored order document (schemas.Order plus generated `_id` and the
`created_at` timestamp stamped at insert time). -/
structure OrderDoc where
  id : Nat
  session_id : String
  customer_name : String
  customer_email : String
  customer_address : String
  items : List OrderItem
  total : ℚ
  created_at : Nat
deriving Repr, DecidableEq

/-- The document store: the three collections, plus a counter supplying fresh
document ids and insert timestamps.

Modelled from the spec: `database.create_document` (database.py, which is not
part of src/) persists one new document with a generated unique identifier and,
for orders, a creation timestamp; both are modelled by the strictly increasing
counter `next`. -/
structure Store where
  products : List (String × Product)
  cart : List CartDoc
  orders : List OrderDoc
  next : Nat
deriving Repr, DecidableEq

/-- Request body of POST /api/cart/add (schemas.CartItem), before pydantic
validation. -/
structure CartItem where
  session_id : String
  product_id : String
  quantity : Int
deriving Repr, DecidableEq

/-- Request body of POST /api/checkout (main.CheckoutRequest); every field is a
plain string, so any string passes request validation. -/
structure CheckoutRequest where
  session_id : String
  customer_name : String
  customer_email : String
  customer_address : String
deriving Repr, DecidableEq

/-- Failure modes surfaced to the client:
* `http status detail` — an `HTTPException` raised by a handler;
* `validation msg` — pydantic request-body validation failure (FastAPI 422);
* `serverError msg` — an exception raised inside a handler body that no code
  catches, which FastAPI surfaces as HTTP 500. -/
inductive Err where
  | http : Nat → String → Err
  | validation : String → Err
  | serverError : String → Err
deriving Repr, DecidableEq

/-- Embedding of `get_product_or_404`: HTTP 400 on a malformed id, HTTP 404 on
a well-formed id that matches no product; read-only (takes the store, returns
only a result). -/
def get_product_or_404 (s : Store) (product_id : String) : Except Err Product :=
  if isValidObjectId product_id then
    match s.products.find? (fun p => p.1 == product_id) with
    | some p => .ok p.2
    | none => .error (.http 404 "Product not found")
  else .error (.http 400 "Invalid product id")

/-- Pydantic validation of a `CartItem` body: `quantity: int = Field(1, ge=1)`
rejects any quantity below 1 with a 422 before the handler runs. -/
def validateCartItem (it : CartItem) : Except Err CartItem :=
  if it.quantity < 1 then
    .error (.validation "quantity: input should be greater than or equal to 1")
  else .ok it

/-- Result of POST /api/cart/add: either `{"status": "removed"}` or the
(created or updated) cart document. -/
inductive AddResult where
  | removed
  | line : CartDoc → AddResult
deriving Repr, DecidableEq

/-- Handler body of `add_to_cart` (main.py lines 111-130), after request
validation.  Upserts by (session, product): merges the quantity as a delta into
an existing line, deleting it when the merged quantity drops to ≤ 0; otherwise
requires a positive quantity and inserts a fresh line. -/
def add_to_cart_handler (s : Store) (item : CartItem) : Except Err AddResult × Store :=
  match get_product_or_404 s item.product_id with
  | .error e => (.error e, s)
  | .ok _ =>
    match s.cart.find? (fun c =>
        c.session_id == item.session_id && c.product_id == item.product_id) with
    | some existing =>
      let new_qty := existing.quantity + item.quantity
      if new_qty ≤ 0 then
        (.ok .removed, { s with cart := s.cart.filter (fun c => c.id ≠ existing.id) })
      else
        let updated : CartDoc := { existing with quantity := new_qty }
        (.ok (.line updated),
         { s with cart := s.cart.map (fun c => if c.id = existing.id then updated else c) })
    | none =>
      if item.quantity ≤ 0 then
        (.error (.http 400 "Quantity must be positive"), s)
      else
        let doc : CartDoc :=
          { id := s.next, session_id := item.session_id,
            product_id := item.product_id, quantity := item.quantity }
        (.ok (.line doc), { s with cart := s.cart ++ [doc], next := s.next + 1 })

/-- POST /api/cart/add as seen by a client: pydantic validation of the body,
then the handler. -/
def add_to_cart (s : Store) (item : CartItem) : Except Err AddResult × Store :=
  match validateCartItem item with
  | .error e => (.error e, s)
  | .ok it => add_to_cart_handler s it

/-- Hydrated line of a cart view (the per-item dict built by `get_cart`);
`subtotal` carries the displayed, 2-decimal-rounded value. -/
structure CartViewItem where
  id : Nat
  product_id : String
  quantity : Int
  title : Option String
  price : ℚ
  image : Option String
  subtotal : ℚ
deriving Repr, DecidableEq

/-- Response of GET /api/cart. -/
structure CartView where
  items : List CartViewItem
  total : ℚ
deriving Repr, DecidableEq

/-- Product resolution for one cart line inside `get_cart`: an empty
`product_id` is falsy in Python, so the line is hydrated with no product;
otherwise `get_product_or_404` runs and its failure aborts the whole view. -/
def lookupProd (s : Store) (c : CartDoc) : Except Err (Option Product) :=
  if c.product_id = "" then .ok none
  else
    match get_product_or_404 s c.product_id with
    | .error e => .error e
    | .ok p => .ok (some p)

/-- Hydration loop of `get_cart`: builds the enriched items and the running
total.  The returned rational is the unrounded accumulated total; each item's
`subtotal` field is rounded to 2 decimals for display. -/
def hydrate (s : Store) : List CartDoc → Except Err (List CartViewItem × ℚ)
  | [] => .ok ([], 0)
  | c :: rest =>
    match lookupProd s c with
    | .error e => .error e
    | .ok prod =>
      let price : ℚ := match prod with | some p => p.price | none => 0
      let subtotal : ℚ := (c.quantity : ℚ) * price
      match hydrate s rest with
      | .error e => .error e
      | .ok (restItems, restTotal) =>
        .ok ({ id := c.id, product_id := c.product_id, quantity := c.quantity,
               title := prod.map (fun p => p.title), price := price,
               image := prod.bind (fun p => p.image),
               subtotal := round2 subtotal } :: restItems,
             subtotal + restTotal)

/-- Embedding of GET /api/cart (`get_cart`, main.py lines 133-154): hydrates
the session's lines and rounds the accumulated total to 2 decimals only at the
end. -/
def get_cart (s : Store) (session_id : String) : Except Err CartView :=
  match hydrate s (s.cart.filter (fun c => c.session_id == session_id)) with
  | .error e => .error e
  | .ok (items, total) => .ok { items := items, total := round2 total }

/-- Embedding of DELETE /api/cart/cleanup: deletes the session's lines with
quantity ≤ 0 and reports how many were deleted. -/
def cleanup_cart (s : Store) (session_id : String) : Nat × Store :=
  let gone := s.cart.filter (fun c => c.session_id == session_id && c.quantity ≤ 0)
  (gone.length,
   { s with cart := s.cart.filter (fun c => !(c.session_id == session_id && c.quantity ≤ 0)) })

/-- Splitting of a character list on a separator character (used to model
splitting an email address at `@`). -/
def splitOnChar (c : Char) : List Char → List (List Char)
  | [] => [[]]
  | x :: xs =>
    match splitOnChar c xs with
    | [] => [[x]]
    | h :: t => if x == c then [] :: h :: t else (x :: h) :: t

/-- Simplified model of the email format accepted by pydantic's `EmailStr`
(used by schemas.Order): one `@` separating a non-empty local part from a
non-empty domain that contains a dot, and no spaces.  The development only
evaluates it on clearly-valid and clearly-invalid concrete addresses. -/
def isValidEmail (s : String) : Bool :=
  match splitOnChar '@' s.data with
  | [lp, dom] => !lp.isEmpty && !dom.isEmpty && dom.contains '.' && !s.data.contains ' '
  | _ => false

/-- Snapshot of one hydrated line into an `OrderItem` (the loop body of
`checkout`).  Python's `or`-defaults are kept: a zero quantity would be
replaced by 1; `or 0.0` on the numeric fields is the identity. -/
def mkOrderItem (it : CartViewItem) : OrderItem :=
  { product_id := it.product_id,
    title := it.title.getD "",
    price := it.price,
    quantity := if it.quantity = 0 then 1 else it.quantity,
    subtotal := it.subtotal }

/-- Embedding of POST /api/checkout (`checkout`, main.py lines 171-198):
loads the hydrated cart, refuses an empty cart with HTTP 400, snapshots the
lines, builds the `Order`—whose `EmailStr` field makes pydantic raise inside
the handler (→ 500) on a malformed email—persists it, then clears the
session's cart. -/
def checkout (s : Store) (payload : CheckoutRequest) : Except Err Nat × Store :=
  match get_cart s payload.session_id with
  | .error e => (.error e, s)
  | .ok cart_data =>
    if cart_data.items.length = 0 then
      (.error (.http 400 "Cart is empty"), s)
    else
      let order_items := cart_data.items.map mkOrderItem
      if isValidEmail payload.customer_email then
        let order : OrderDoc :=
          { id := s.next, session_id := payload.session_id,
            customer_name := payload.customer_name,
            customer_email := payload.customer_email,
            customer_address := payload.customer_address,
            items := order_items, total := cart_data.total,
            created_at := s.next }
        (.ok s.next,
         { s with orders := s.orders ++ [order],
                  cart := s.cart.filter (fun c => !(c.session_id == payload.session_id)),
                  next := s.next + 1 })
      else
        (.error (.serverError "Order: customer_email is not a valid email address"), s)

/-- Ordering used by GET /api/orders: `a` comes no later than `b` when its
creation time is at least `b`'s (Mongo sort by `created_at` descending). -/
def createdGe (a b : OrderDoc) : Prop := b.created_at ≤ a.created_at

instance : DecidableRel createdGe := fun a b => Nat.decLe b.created_at a.created_at

instance : IsTotal OrderDoc createdGe :=
  ⟨fun a b => (Nat.le_total b.created_at a.created_at).elim Or.inl Or.inr⟩

instance : IsTrans OrderDoc createdGe :=
  ⟨fun _ _ _ h h' => Nat.le_trans h' h⟩

/-- Embedding of GET /api/orders (`list_orders`): the session's orders sorted
by creation time, most recent first.  The handler's projection keeps exactly
the fields modelled here, so it is the identity on `OrderDoc`. -/
def list_orders (s : Store) (session_id : String) : List OrderDoc :=
  List.insertionSort createdGe (s.orders.filter (fun o => o.session_id == session_id))

/-! ### Helper lemmas about the rounding model -/

/-- Numerator-over-denominator floor division agrees with the mathematical
floor on ℚ. -/
theorem fdiv_num_den (q : ℚ) : q.num.fdiv (q.den : ℤ) = ⌊q⌋ := by
  rw [Rat.floor_def, Int.fdiv_eq_ediv]
  exact Int.ofNat_nonneg q.den

/-- Evaluation rule for `roundHalfEven` below the tie point. -/
theorem roundHalfEven_of_lt (x : ℚ) (f : ℤ) (hf : ⌊x⌋ = f)
    (h : x - (f : ℚ) < 1/2) : roundHalfEven x = f := by
  unfold roundHalfEven
  rw [fdiv_num_den, hf]
  rw [if_pos h]

/-- Evaluation rule for `roundHalfEven` above the tie point. -/
theorem roundHalfEven_of_gt (x : ℚ) (f : ℤ) (hf : ⌊x⌋ = f)
    (h : 1/2 < x - (f : ℚ)) : roundHalfEven x = f + 1 := by
  unfold roundHalfEven
  rw [fdiv_num_den, hf]
  rw [if_neg (by linarith), if_pos h]

/-- Evaluation rule for `round2` when the scaled value rounds down. -/
theorem round2_of_lt (x : ℚ) (f : ℤ) (hf : ⌊100 * x⌋ = f)
    (h : 100 * x - (f : ℚ) < 1/2) : round2 x = (f : ℚ) / 100 := by
  unfold round2
  rw [roundHalfEven_of_lt _ f hf h]

/-- Evaluation rule for `round2` when the scaled value rounds up. -/
theorem round2_of_gt (x : ℚ) (f : ℤ) (hf : ⌊100 * x⌋ = f)
    (h : 1/2 < 100 * x - (f : ℚ)) : round2 x = ((f : ℚ) + 1) / 100 := by
  unfold round2
  rw [roundHalfEven_of_gt _ f hf h]
  push_cast
  ring

/-- Rounding to 2 decimals fixes every integer multiple of 1/100. -/
theorem round2_cents (n : ℤ) : round2 ((n : ℚ) / 100) = (n : ℚ) / 100 := by
  rw [round2_of_lt _ n (by rw [mul_div_cancel₀ _ (by norm_num : (100:ℚ) ≠ 0)]; exact Int.floor_intCast n)
    (by rw [mul_div_cancel₀ _ (by norm_num : (100:ℚ) ≠ 0)]; norm_num)]

/-- Rounding to 2 decimals fixes zero. -/
theorem round2_zero : round2 0 = 0 := by
  have := round2_cents 0
  simpa using this

/-! ### Specification of the hydration loop -/

/-- Current catalog price seen by `get_cart` for one cart line: the referenced
product's price, or 0 for a line with no (or an unresolvable) product
reference. -/
def priceOf (s : Store) (c : CartDoc) : ℚ :=
  match lookupProd s c with
  | .ok (some p) => p.price
  | _ => 0

/-- Characterization of a successful hydration: the accumulated total is the
unrounded sum of `quantity * price`, each displayed subtotal is the 2-decimal
rounding of its line's `quantity * price`, and lines are hydrated one-to-one. -/
theorem hydrate_ok (s : Store) (l : List CartDoc) (items : List CartViewItem) (t : ℚ)
    (h : hydrate s l = .ok (items, t)) :
    t = (l.map (fun c => (c.quantity : ℚ) * priceOf s c)).sum ∧
    items.map (fun i => i.subtotal) = l.map (fun c => round2 ((c.quantity : ℚ) * priceOf s c)) ∧
    items.length = l.length := by
  induction l generalizing items t with
  | nil =>
    simp only [hydrate, Except.ok.injEq, Prod.mk.injEq] at h
    obtain ⟨h1, h2⟩ := h
    subst h1; subst h2
    simp
  | cons c rest ih =>
    unfold hydrate at h
    cases hl : lookupProd s c with
    | error e => rw [hl] at h; exact absurd h (by simp)
    | ok prod =>
      rw [hl] at h
      cases hr : hydrate s rest with
      | error e => rw [hr] at h; cases prod <;> exact absurd h (by simp)
      | ok pr =>
        obtain ⟨ritems, rt⟩ := pr
        rw [hr] at h
        obtain ⟨ih1, ih2, ih3⟩ := ih ritems rt hr
        cases prod with
        | none =>
          have hpr : priceOf s c = 0 := by simp [priceOf, hl]
          simp only [Except.ok.injEq, Prod.mk.injEq] at h
          obtain ⟨h1, h2⟩ := h
          subst h1; subst h2
          exact ⟨by simp [hpr, ih1], by simp [hpr, ih2], by simp [ih3]⟩
        | some p =>
          have hpr : priceOf s c = p.price := by simp [priceOf, hl]
          simp only [Except.ok.injEq, Prod.mk.injEq] at h
          obtain ⟨h1, h2⟩ := h
          subst h1; subst h2
          exact ⟨by simp [hpr, ih1], by simp [hpr, ih2], by simp [ih3]⟩

/-- The lines a session sees in its cart. -/
def sessionLines (s : Store) (sid : String) : List CartDoc :=
  s.cart.filter (fun c => c.session_id == sid)

/-- Characterization of a successful `get_cart`: the reported total is the
2-decimal rounding of the unrounded sum over the session's lines, and the
displayed subtotals are the per-line roundings. -/
theorem get_cart_ok (s : Store) (sid : String) (view : CartView)
    (h : get_cart s sid = .ok view) :
    view.total = round2 (((sessionLines s sid).map
        (fun c => (c.quantity : ℚ) * priceOf s c)).sum) ∧
    view.items.map (fun i => i.subtotal) = (sessionLines s sid).map
        (fun c => round2 ((c.quantity : ℚ) * priceOf s c)) ∧
    view.items.length = (sessionLines s sid).length := by
  unfold get_cart at h
  cases hh : hydrate s (s.cart.filter (fun c => c.session_id == sid)) with
  | error e => rw [hh] at h; exact absurd h (by simp)
  | ok pr =>
    obtain ⟨items, t⟩ := pr
    rw [hh] at h
    simp only [Except.ok.injEq] at h
    obtain ⟨h1, h2, h3⟩ := hydrate_ok s _ items t hh
    subst h
    exact ⟨by simpa using congrArg round2 h1, by simpa [sessionLines] using h2,
      by simpa [sessionLines] using h3⟩

/-- Filtering a list for a session after all of that session's elements were
removed yields the empty list. -/
theorem filter_after_clear (l : List CartDoc) (sid : String) :
    (l.filter (fun c => !(c.session_id == sid))).filter (fun c => c.session_id == sid) = [] := by
  induction l with
  | nil => rfl
  | cons c rest ih =>
    by_cases hc : c.session_id == sid
    · simp [List.filter, hc, ih]
    · simp only [List.filter, hc, Bool.not_false]
      simp only [Bool.not_eq_true] at hc
      simp [List.filter, hc, ih]

/-! ### Claim theorems: checkout, cart view, product lookup, new-line adds -/

/-- Order document that a successful checkout builds from the hydrated view:
the snapshot list and the already-computed total are copied in. -/
def builtOrder (s : Store) (p : CheckoutRequest) (view : CartView) : OrderDoc :=
  { id := s.next, session_id := p.session_id, customer_name := p.customer_name,
    customer_email := p.customer_email, customer_address := p.customer_address,
    items := view.items.map mkOrderItem, total := view.total, created_at := s.next }

/-- C1: for a session whose cart is non-empty (and hydrates successfully, which
the claim presupposes by speaking of "the total that getCart computed"), a
checkout with a well-formed email creates exactly one new `Order`, its total is
the already-computed hydrated total of the pre-checkout `get_cart` (copied, not
recomputed), and afterwards `get_cart` for that session has zero lines. -/
theorem checkout_nonempty_creates_one_order (s : Store) (p : CheckoutRequest) (view : CartView)
    (hview : get_cart s p.session_id = .ok view)
    (hne : view.items ≠ [])
    (hemail : isValidEmail p.customer_email = true) :
    (checkout s p).1 = .ok s.next ∧
    (∃ o : OrderDoc, (checkout s p).2.orders = s.orders ++ [o] ∧ o.total = view.total) ∧
    get_cart (checkout s p).2 p.session_id = .ok { items := [], total := 0 } := by
  have hlen : ¬ view.items.length = 0 := by
    simpa [List.length_eq_zero] using hne
  have hco : checkout s p =
      (.ok s.next,
       { s with
         orders := s.orders ++ [builtOrder s p view],
         cart := s.cart.filter (fun c => !(c.session_id == p.session_id)),
         next := s.next + 1 }) := by
    unfold checkout
    rw [hview]
    simp [hlen, hemail, builtOrder]
  rw [hco]
  refine ⟨rfl, ⟨_, rfl, rfl⟩, ?_⟩
  simp only [get_cart, filter_after_clear, hydrate, round2_zero]

/-- C3: checkout for a session with zero cart lines fails with the EmptyCart
error (HTTP 400 "Cart is empty") and leaves the store — in particular the
order collection — unchanged. -/
theorem checkout_empty_cart_fails (s : Store) (p : CheckoutRequest)
    (h : sessionLines s p.session_id = []) :
    checkout s p = (.error (.http 400 "Cart is empty"), s) := by
  simp only [sessionLines] at h
  simp [checkout, get_cart, h, hydrate]

/-- C4: the `get_cart` total is the 2-decimal rounding of the unrounded sum of
`quantity * price` over the session's lines (rounding applied only at the
end), while each displayed line subtotal is independently the 2-decimal
rounding of that line's `quantity * price`. -/
theorem get_cart_rounding_structure (s : Store) (sid : String) (view : CartView)
    (h : get_cart s sid = .ok view) :
    view.total = round2 (((sessionLines s sid).map
        (fun c => (c.quantity : ℚ) * priceOf s c)).sum) ∧
    view.items.map (fun i => i.subtotal) = (sessionLines s sid).map
        (fun c => round2 ((c.quantity : ℚ) * priceOf s c)) := by
  obtain ⟨h1, h2, _⟩ := get_cart_ok s sid view h
  exact ⟨h1, h2⟩

/-- C6: product lookup distinguishes its two failure modes — a malformed
identifier yields HTTP 400 "Invalid product id" (never the 404), and a
well-formed identifier matching no product yields HTTP 404 "Product not
found".  `get_product_or_404` takes the store and returns only a result, so it
is read-only by construction. -/
theorem get_product_error_modes (s : Store) (bad good : String)
    (hbad : isValidObjectId bad = false)
    (hgood : isValidObjectId good = true)
    (hmiss : s.products.find? (fun p => p.1 == good) = none) :
    get_product_or_404 s bad = .error (.http 400 "Invalid product id") ∧
    get_product_or_404 s good = .error (.http 404 "Product not found") := by
  constructor
  · simp [get_product_or_404, hbad]
  · simp [get_product_or_404, hgood, hmiss]

/-- C7: when no cart line exists for (session, product) and the product
resolves, adding a positive quantity creates exactly one new line with that
quantity and returns it, while a non-positive quantity is rejected — by the
`CartItem` schema's `ge=1` validation, a client error about the quantity —
with no line created and the store unchanged. -/
theorem add_to_cart_new_line (s : Store) (item : CartItem) (p : Product)
    (hprod : get_product_or_404 s item.product_id = .ok p)
    (hno : s.cart.find? (fun c =>
        c.session_id == item.session_id && c.product_id == item.product_id) = none) :
    (0 < item.quantity →
      add_to_cart s item =
        (.ok (.line { id := s.next, session_id := item.session_id,
                      product_id := item.product_id, quantity := item.quantity }),
         { s with cart := s.cart ++ [{ id := s.next, session_id := item.session_id,
                                       product_id := item.product_id, quantity := item.quantity }],
                  next := s.next + 1 })) ∧
    (item.quantity ≤ 0 →
      add_to_cart s item =
        (.error (.validation "quantity: input should be greater than or equal to 1"), s)) := by
  constructor
  · intro hq
    have hv : validateCartItem item = .ok item := by
      unfold validateCartItem
      rw [if_neg (by omega)]
    have hq2 : ¬ item.quantity ≤ 0 := by omega
    simp only [add_to_cart, hv, add_to_cart_handler, hprod, hno, hq2, if_false]
  · intro hq
    have hv : validateCartItem item =
        .error (.validation "quantity: input should be greater than or equal to 1") := by
      unfold validateCartItem
      rw [if_pos (by omega)]
    simp only [add_to_cart, hv]

/-! ### Reachable store states and structural invariants -/

/-- Distinctness of (session, product) keys between two cart documents. -/
def UniqKey (a b : CartDoc) : Prop :=
  ¬(a.session_id = b.session_id ∧ a.product_id = b.product_id)

/-- One API operation, as a relation between the store before and after it. -/
inductive Step : Store → Store → Prop where
  | stepAdd (s : Store) (item : CartItem) : Step s (add_to_cart s item).2
  | stepCleanup (s : Store) (sid : String) : Step s (cleanup_cart s sid).2
  | stepCheckout (s : Store) (p : CheckoutRequest) : Step s (checkout s p).2
  | stepSeed (s : Store) (ps : List (String × Product)) : Step s { s with products := ps }

/-- Store states reachable by sequential execution of the operations from a
store with an empty cart and no orders (any product catalog; seeding may also
replace the catalog at any point). -/
inductive Reachable : Store → Prop where
  | init (ps : List (String × Product)) :
      Reachable { products := ps, cart := [], orders := [], next := 0 }
  | step {s s' : Store} : Reachable s → Step s s' → Reachable s'

/-- Structural invariants maintained by every operation: at most one cart line
per (session, product) key, pairwise-distinct cart document ids below the id
counter, and strictly increasing order timestamps below the counter. -/
structure StoreInv (s : Store) : Prop where
  uniq : s.cart.Pairwise UniqKey
  ids : (s.cart.map (fun c => c.id)).Nodup
  bound : ∀ c ∈ s.cart, c.id < s.next
  ordTimes : s.orders.Pairwise (fun a b => a.created_at < b.created_at)
  ordBound : ∀ o ∈ s.orders, o.created_at < s.next

/-- Deleting cart documents by a filter preserves the invariants. -/
theorem inv_filter_cart (s : Store) (q : CartDoc → Bool) (h : StoreInv s) :
    StoreInv { s with cart := s.cart.filter q } :=
  { uniq := h.uniq.filter q
    ids := h.ids.sublist ((List.filter_sublist _).map _)
    bound := fun c hc => h.bound c (List.mem_of_mem_filter hc)
    ordTimes := h.ordTimes
    ordBound := h.ordBound }

/-- Updating the quantity of one existing line (matched by document id)
preserves the invariants: keys and ids are untouched. -/
theorem inv_update_line (s : Store) (existing : CartDoc) (nq : Int)
    (hex : existing ∈ s.cart) (h : StoreInv s) :
    StoreInv { s with cart := s.cart.map (fun c =>
      if c.id = existing.id then { existing with quantity := nq } else c) } := by
  have hkeys : ∀ c ∈ s.cart,
      (if c.id = existing.id then { existing with quantity := nq } else c).session_id
          = c.session_id ∧
      (if c.id = existing.id then { existing with quantity := nq } else c).product_id
          = c.product_id ∧
      (if c.id = existing.id then { existing with quantity := nq } else c).id = c.id := by
    intro c hc
    by_cases hid : c.id = existing.id
    · have hce : c = existing := List.inj_on_of_nodup_map h.ids hc hex hid
      subst hce
      simp [hid]
    · simp [hid]
  have hids : (s.cart.map (fun c =>
      if c.id = existing.id then { existing with quantity := nq } else c)).map (fun c => c.id)
      = s.cart.map (fun c => c.id) := by
    rw [List.map_map]
    exact List.map_congr_left (fun c hc => (hkeys c hc).2.2)
  refine ⟨?_, ?_, ?_, h.ordTimes, h.ordBound⟩
  · rw [List.pairwise_map]
    refine h.uniq.imp_of_mem ?_
    intro a b ha hb hab
    obtain ⟨sa, pa, _⟩ := hkeys a ha
    obtain ⟨sb, pb, _⟩ := hkeys b hb
    unfold UniqKey at hab ⊢
    rw [sa, pa, sb, pb]
    exact hab
  · rw [hids]
    exact h.ids
  · intro c hc
    rw [List.mem_map] at hc
    obtain ⟨d, hd, rfl⟩ := hc
    rw [(hkeys d hd).2.2]
    exact h.bound d hd

/-- Inserting a fresh line for a key not present in the cart, with the next
free document id, preserves the invariants. -/
theorem inv_insert_line (s : Store) (it : CartItem)
    (hno : s.cart.find? (fun c =>
        c.session_id == it.session_id && c.product_id == it.product_id) = none)
    (h : StoreInv s) :
    StoreInv { s with
      cart := s.cart ++ [{ id := s.next, session_id := it.session_id,
                           product_id := it.product_id, quantity := it.quantity }],
      next := s.next + 1 } := by
  have hmem : ∀ c ∈ s.cart, ¬(c.session_id = it.session_id ∧ c.product_id = it.product_id) := by
    intro c hc
    have := List.find?_eq_none.mp hno c hc
    simpa using this
  refine ⟨?_, ?_, ?_, h.ordTimes, fun o ho => Nat.lt_succ_of_lt (h.ordBound o ho)⟩
  · rw [List.pairwise_append]
    refine ⟨h.uniq, List.pairwise_singleton _ _, ?_⟩
    intro a ha b hb
    rw [List.mem_singleton] at hb
    subst hb
    exact hmem a ha
  · rw [List.map_append, List.nodup_append]
    refine ⟨h.ids, by simp, ?_⟩
    intro a ha hb
    rw [List.mem_map] at ha
    obtain ⟨c, hc, rfl⟩ := ha
    rw [List.map_cons, List.map_nil, List.mem_singleton] at hb
    exact absurd hb (Nat.ne_of_lt (h.bound c hc))
  · intro c hc
    rw [List.mem_append] at hc
    cases hc with
    | inl hc => exact Nat.lt_succ_of_lt (h.bound c hc)
    | inr hc =>
      rw [List.mem_singleton] at hc
      subst hc
      exact Nat.lt_succ_self _

/-- The add-to-cart handler preserves the invariants. -/
theorem inv_handler (s : Store) (it : CartItem) (h : StoreInv s) :
    StoreInv (add_to_cart_handler s it).2 := by
  unfold add_to_cart_handler
  cases hp : get_product_or_404 s it.product_id with
  | error e => exact h
  | ok p =>
    cases hf : s.cart.find? (fun c =>
        c.session_id == it.session_id && c.product_id == it.product_id) with
    | some existing =>
      have hex := List.mem_of_find?_eq_some hf
      dsimp only
      by_cases hq : existing.quantity + it.quantity ≤ 0
      · rw [if_pos hq]
        exact inv_filter_cart s _ h
      · rw [if_neg hq]
        exact inv_update_line s existing _ hex h
    | none =>
      dsimp only
      by_cases hq : it.quantity ≤ 0
      · rw [if_pos hq]
        exact h
      · rw [if_neg hq]
        exact inv_insert_line s it hf h

/-- POST /api/cart/add preserves the invariants. -/
theorem inv_add (s : Store) (item : CartItem) (h : StoreInv s) :
    StoreInv (add_to_cart s item).2 := by
  unfold add_to_cart
  cases hv : validateCartItem item with
  | error e => exact h
  | ok it => exact inv_handler s it h

/-- DELETE /api/cart/cleanup preserves the invariants. -/
theorem inv_cleanup (s : Store) (sid : String) (h : StoreInv s) :
    StoreInv (cleanup_cart s sid).2 :=
  inv_filter_cart s _ h

/-- POST /api/checkout preserves the invariants and stamps the new order with
a strictly larger creation time than every existing order. -/
theorem inv_checkout (s : Store) (p : CheckoutRequest) (h : StoreInv s) :
    StoreInv (checkout s p).2 := by
  unfold checkout
  cases hg : get_cart s p.session_id with
  | error e => exact h
  | ok view =>
    dsimp only
    by_cases hl : view.items.length = 0
    · rw [if_pos hl]
      exact h
    · rw [if_neg hl]
      by_cases he : isValidEmail p.customer_email = true
      · rw [if_pos he]
        refine ⟨h.uniq.filter _, h.ids.sublist ((List.filter_sublist _).map _),
          fun c hc => Nat.lt_succ_of_lt (h.bound c (List.mem_of_mem_filter hc)), ?_, ?_⟩
        · rw [List.pairwise_append]
          refine ⟨h.ordTimes, List.pairwise_singleton _ _, ?_⟩
          intro a ha b hb
          rw [List.mem_singleton] at hb
          subst hb
          exact h.ordBound a ha
        · intro o ho
          rw [List.mem_append] at ho
          cases ho with
          | inl ho => exact Nat.lt_succ_of_lt (h.ordBound o ho)
          | inr ho =>
            rw [List.mem_singleton] at ho
            subst ho
            exact Nat.lt_succ_self _
      · rw [if_neg he]
        exact h

/-- Every reachable store state satisfies the structural invariants. -/
theorem reachable_inv {s : Store} (h : Reachable s) : StoreInv s := by
  induction h with
  | init ps => exact ⟨List.Pairwise.nil, List.nodup_nil, by simp, List.Pairwise.nil, by simp⟩
  | step _ hstep ih =>
    cases hstep with
    | stepAdd item => exact inv_add _ item ih
    | stepCleanup sid => exact inv_cleanup _ sid ih
    | stepCheckout p => exact inv_checkout _ p ih
    | stepSeed ps => exact ⟨ih.uniq, ih.ids, ih.bound, ih.ordTimes, ih.ordBound⟩

/-- C8: in every store state reachable by sequential execution of the cart
operations from an empty cart store, there is at most one cart line per
(session, product) pair. -/
theorem cart_line_unique_per_key (s : Store) (h : Reachable s) :
    s.cart.Pairwise (fun a b => ¬(a.session_id = b.session_id ∧ a.product_id = b.product_id)) :=
  (reachable_inv h).uniq

/-- C9: for every reachable store and session, `list_orders` returns exactly
that session's orders (a permutation of the session's order collection),
sorted strictly by creation time descending; it takes the store and returns
only a list, so it is read-only by construction. -/
theorem list_orders_sorted_desc (s : Store) (h : Reachable s) (sid : String) :
    (list_orders s sid).Pairwise (fun a b => b.created_at < a.created_at) ∧
    (list_orders s sid).Perm (s.orders.filter (fun o => o.session_id == sid)) := by
  have hperm : (list_orders s sid).Perm (s.orders.filter (fun o => o.session_id == sid)) :=
    List.perm_insertionSort createdGe _
  have hsorted : List.Pairwise createdGe (list_orders s sid) :=
    List.sorted_insertionSort createdGe _
  have hlt : (s.orders.filter (fun o => o.session_id == sid)).Pairwise
      (fun a b => a.created_at < b.created_at) :=
    (reachable_inv h).ordTimes.filter _
  have hne : (list_orders s sid).Pairwise (fun a b => a.created_at ≠ b.created_at) :=
    hperm.symm.pairwise (hlt.imp (fun hab => Nat.ne_of_lt hab)) (fun hxy => Ne.symm hxy)
  refine ⟨?_, hperm⟩
  exact (hsorted.and hne).imp (fun hab => Nat.lt_of_le_of_ne hab.1 (Ne.symm hab.2))

/-! ### Concrete fixtures -/

/-- A well-formed product id (24 hex characters). -/
def pidA : String := "aaaaaaaaaaaaaaaaaaaaaaaa"

/-- A second well-formed product id. -/
def pidB : String := "bbbbbbbbbbbbbbbbbbbbbbbb"

/-- A product with a 2-decimal price (19.99). -/
def prodTee : Product := { title := "Classic Tee", price := 1999/100, category := "Apparel" }

/-- A product whose price has three decimal places (1.004), to exercise the
rounding behaviour. -/
def prodMug : Product := { title := "Odd Mug", price := 251/250, category := "Home" }

/-- A store with one product and one cart line of quantity 2 for session
"s1". -/
def storeA : Store :=
  { products := [(pidA, prodTee)], cart := [⟨0, "s1", pidA, 2⟩], orders := [], next := 1 }

/-- The hydrated view of `storeA`'s session "s1". -/
def viewA : CartView :=
  { items := [⟨0, pidA, 2, some "Classic Tee", 1999/100, none, 3998/100⟩], total := 3998/100 }

/-- A checkout request with a well-formed email. -/
def reqA : CheckoutRequest := ⟨"s1", "Ada", "ada@example.com", "1 Main St"⟩

/-- A store with an empty cart. -/
def store0 : Store := { products := [(pidA, prodTee)], cart := [], orders := [], next := 0 }

/-- A store with two 3-decimal-price products and one cart line of each for
session "s1". -/
def storeM : Store :=
  { products := [(pidA, prodMug), (pidB, prodMug)],
    cart := [⟨0, "s1", pidA, 1⟩, ⟨1, "s1", pidB, 1⟩], orders := [], next := 2 }

/-- The hydrated view of `storeM`'s session "s1": each line's displayed
subtotal rounds 1.004 down to 1.00, while the total rounds 2.008 up to 2.01. -/
def viewM : CartView :=
  { items := [⟨0, pidA, 1, some "Odd Mug", 251/250, none, 1⟩,
              ⟨1, pidB, 1, some "Odd Mug", 251/250, none, 1⟩],
    total := 201/100 }

/-- A checkout request for `storeM`'s session. -/
def reqM : CheckoutRequest := ⟨"s1", "Bo", "bo@example.com", "2 Side St"⟩

/-- The order persisted by checking out `storeM`'s session "s1". -/
def orderM : OrderDoc :=
  { id := 2, session_id := "s1", customer_name := "Bo", customer_email := "bo@example.com",
    customer_address := "2 Side St",
    items := [⟨pidA, "Odd Mug", 251/250, 1, 1⟩, ⟨pidB, "Odd Mug", 251/250, 1, 1⟩],
    total := 201/100, created_at := 2 }

/-- Concrete rounding fact: 39.98 is already at cent precision. -/
theorem round2_tee_pair : round2 (2 * (1999/100)) = 3998/100 := by
  have h : (2 : ℚ) * (1999/100) = ((3998 : ℤ) : ℚ)/100 := by norm_num
  rw [h, round2_cents]
  norm_num

/-- Concrete rounding fact: 1.004 rounds down to 1.00. -/
theorem round2_mug_line : round2 (251/250) = 1 := by
  rw [round2_of_lt _ 100 (by norm_num) (by norm_num)]
  norm_num

/-- Concrete rounding fact: 2.008 rounds up to 2.01. -/
theorem round2_mug_total : round2 ((251 : ℚ)/250 + 251/250) = 201/100 := by
  rw [round2_of_gt _ 200 (by norm_num) (by norm_num)]
  norm_num

/-- The id strings of the fixtures are well-formed ObjectIds. -/
theorem pid_valid : isValidObjectId "aaaaaaaaaaaaaaaaaaaaaaaa" = true ∧
    isValidObjectId "bbbbbbbbbbbbbbbbbbbbbbbb" = true := by decide

/-- The hydrated view of `storeA`'s session "s1" is `viewA`. -/
theorem get_cart_storeA : get_cart storeA "s1" = .ok viewA := by
  simp [get_cart, hydrate, lookupProd, get_product_or_404, storeA, prodTee, viewA, pidA,
    pid_valid.1, round2_tee_pair]

/-! ### Remaining claim theorems and the witnesses -/

/-- C2: through the validated interface, a negative quantity on POST
/api/cart/add is rejected by the `CartItem` schema (`quantity ge=1`) with a
422 validation error and the store is unchanged, so the decrement/removal
path is unreachable; the handler itself, called past validation as the claim
(and the spec) describe the interface, would delete the quantity-2 line and
answer "removed". -/
theorem add_negative_delta_rejected :
    add_to_cart storeA { session_id := "s1", product_id := pidA, quantity := -2 } =
      (.error (.validation "quantity: input should be greater than or equal to 1"), storeA) ∧
    add_to_cart_handler storeA { session_id := "s1", product_id := pidA, quantity := -2 } =
      (.ok .removed, { storeA with cart := [] }) := by
  constructor
  · rfl
  · rfl

/-- C5: checkout of a non-empty cart with a malformed customer email does not
fail with a 400-class error: the plain-string `CheckoutRequest` accepts the
body, and the `EmailStr` validation of `Order` then raises inside the handler
(an unhandled exception, surfaced as HTTP 500).  No order is created — and the
cart is not even cleared. -/
theorem checkout_invalid_email_server_error :
    checkout storeA ⟨"s1", "Eve", "not-an-email", "3 Void St"⟩ =
      (.error (.serverError "Order: customer_email is not a valid email address"), storeA) := by
  rfl

/-- C10: the persisted order's total is copied from the hydrated cart total
(2-decimal rounding of the unrounded sum), each order item's subtotal is the
per-line 2-decimal rounding, and for 3-decimal prices (two lines at 1.004)
the stored subtotals sum to 2.00 while the stored total is 2.01. -/
theorem order_total_vs_subtotal_sum :
    get_cart storeM "s1" = .ok viewM ∧
    checkout storeM reqM = (.ok 2, { storeM with cart := [], orders := [orderM], next := 3 }) ∧
    orderM.total = viewM.total ∧
    orderM.items.map (fun i => i.subtotal) = viewM.items.map (fun i => i.subtotal) ∧
    viewM.total = round2 ((251 : ℚ)/250 + 251/250) ∧
    viewM.items.map (fun i => i.subtotal) = [round2 ((251 : ℚ)/250), round2 ((251 : ℚ)/250)] ∧
    (orderM.items.map (fun i => i.subtotal)).sum ≠ orderM.total := by
  refine ⟨?_, ?_, rfl, rfl, ?_, ?_, ?_⟩
  · simp [get_cart, hydrate, lookupProd, get_product_or_404, storeM, prodMug, viewM, pidA, pidB,
      pid_valid.1, pid_valid.2, round2_mug_line, round2_mug_total]
  · simp [checkout, get_cart, hydrate, lookupProd, get_product_or_404, storeM, prodMug, reqM,
      orderM, pidA, pidB, pid_valid.1, pid_valid.2, round2_mug_line, round2_mug_total,
      mkOrderItem, isValidEmail, splitOnChar]
  · rw [round2_mug_total]
    rfl
  · rw [round2_mug_line]
    rfl
  · norm_num [orderM]

/-- Witness for C1 at `storeA`/`reqA`: the hypotheses hold and checkout
creates one order with the pre-checkout total, leaving an empty cart view. -/
theorem checkout_nonempty_witness :
    get_cart storeA reqA.session_id = .ok viewA ∧
    viewA.items ≠ [] ∧
    isValidEmail reqA.customer_email = true ∧
    ((checkout storeA reqA).1 = .ok storeA.next ∧
     (∃ o : OrderDoc, (checkout storeA reqA).2.orders = storeA.orders ++ [o] ∧
        o.total = viewA.total) ∧
     get_cart (checkout storeA reqA).2 reqA.session_id = .ok { items := [], total := 0 }) := by
  have hgc : get_cart storeA reqA.session_id = .ok viewA := get_cart_storeA
  have hne : viewA.items ≠ [] := by simp [viewA]
  have he : isValidEmail reqA.customer_email = true := by decide
  exact ⟨hgc, hne, he, checkout_nonempty_creates_one_order storeA reqA viewA hgc hne he⟩

/-- Witness for C3: a session with zero lines is refused with the empty-cart
error and the store is unchanged. -/
theorem checkout_empty_witness :
    sessionLines storeA "nobody" = [] ∧
    checkout storeA ⟨"nobody", "Ned", "ned@example.com", "4 Nowhere"⟩ =
      (.error (.http 400 "Cart is empty"), storeA) := by
  have h : sessionLines storeA "nobody" = [] := by decide
  exact ⟨h, checkout_empty_cart_fails storeA ⟨"nobody", "Ned", "ned@example.com", "4 Nowhere"⟩ h⟩

/-- Witness for C4 at `storeA`: the hydrated view exists and its total and
subtotals satisfy the rounding structure. -/
theorem get_cart_rounding_witness :
    get_cart storeA "s1" = .ok viewA ∧
    (viewA.total = round2 (((sessionLines storeA "s1").map
        (fun c => (c.quantity : ℚ) * priceOf storeA c)).sum) ∧
     viewA.items.map (fun i => i.subtotal) = (sessionLines storeA "s1").map
        (fun c => round2 ((c.quantity : ℚ) * priceOf storeA c))) :=
  ⟨get_cart_storeA, get_cart_rounding_structure storeA "s1" viewA get_cart_storeA⟩

/-- Witness for C6: a malformed id ("zz") yields the 400, and a well-formed
but unknown id yields the 404. -/
theorem get_product_error_modes_witness :
    isValidObjectId "zz" = false ∧
    isValidObjectId pidB = true ∧
    storeA.products.find? (fun p => p.1 == pidB) = none ∧
    (get_product_or_404 storeA "zz" = .error (.http 400 "Invalid product id") ∧
     get_product_or_404 storeA pidB = .error (.http 404 "Product not found")) := by
  have h1 : isValidObjectId "zz" = false := by decide
  have h2 : isValidObjectId pidB = true := by decide
  have h3 : storeA.products.find? (fun p => p.1 == pidB) = none := by decide
  exact ⟨h1, h2, h3, get_product_error_modes storeA "zz" pidB h1 h2 h3⟩

/-- Witness for C7: for a session/product with no existing line, adding
quantity 2 creates exactly that line, and adding quantity 0 is rejected with
the store unchanged. -/
theorem add_to_cart_new_line_witness :
    (get_product_or_404 storeA pidA = .ok prodTee ∧
     storeA.cart.find? (fun c => c.session_id == "s2" && c.product_id == pidA) = none ∧
     (0 : Int) < 2 ∧
     add_to_cart storeA ⟨"s2", pidA, 2⟩ =
       (.ok (.line { id := storeA.next, session_id := "s2", product_id := pidA, quantity := 2 }),
        { storeA with
          cart := storeA.cart ++ [{ id := storeA.next, session_id := "s2",
                                    product_id := pidA, quantity := 2 }],
          next := storeA.next + 1 })) ∧
    ((0 : Int) ≤ 0 ∧
     add_to_cart storeA ⟨"s2", pidA, 0⟩ =
       (.error (.validation "quantity: input should be greater than or equal to 1"), storeA)) := by
  have hprod : get_product_or_404 storeA pidA = .ok prodTee := rfl
  have hno : storeA.cart.find? (fun c => c.session_id == "s2" && c.product_id == pidA) = none := by
    decide
  exact ⟨⟨hprod, hno, by decide,
      (add_to_cart_new_line storeA ⟨"s2", pidA, 2⟩ prodTee hprod hno).1 (by decide)⟩,
    ⟨by decide, (add_to_cart_new_line storeA ⟨"s2", pidA, 0⟩ prodTee hprod hno).2 (by decide)⟩⟩

/-- Witness for C8 at a concrete reachable state (one add on an empty cart
store). -/
theorem cart_line_unique_witness :
    ((add_to_cart store0 ⟨"s1", pidA, 2⟩).2).cart.Pairwise
      (fun a b => ¬(a.session_id = b.session_id ∧ a.product_id = b.product_id)) :=
  cart_line_unique_per_key _
    (Reachable.step (Reachable.init _) (Step.stepAdd store0 ⟨"s1", pidA, 2⟩))

/-- Witness for C9 at a concrete reachable state (an add then a checkout, so
one order exists). -/
theorem list_orders_sorted_witness :
    (list_orders ((checkout (add_to_cart store0 ⟨"s1", pidA, 2⟩).2 reqA).2) "s1").Pairwise
      (fun a b => b.created_at < a.created_at) ∧
    (list_orders ((checkout (add_to_cart store0 ⟨"s1", pidA, 2⟩).2 reqA).2) "s1").Perm
      (((checkout (add_to_cart store0 ⟨"s1", pidA, 2⟩).2 reqA).2).orders.filter
        (fun o => o.session_id == "s1")) :=
  list_orders_sorted_desc _
    (Reachable.step (Reachable.step (Reachable.init _) (Step.stepAdd store0 ⟨"s1", pidA, 2⟩))
      (Step.stepCheckout _ reqA)) "s1"

end ECom
